import Mathlib

/-!
Verification of the CyberShield heuristic threat-scoring routes.

This file gives a shallow embedding of the three scoring routes of the
repository — the URL safety check (`src/app/api/url-check/route.ts`), the
password strength check (`src/app/api/password-check/route.ts`) and the
SMS scam detection route — together with proofs about the claims of the
specification.

Modelling conventions:
* JavaScript numbers are modelled as `Int` (every score in these routes is
  an exact small integer) or `Nat` where the source value is a count.
* JavaScript regular expressions are modelled by executable Lean functions
  on `List Char`.  All patterns in this code base are built from literal
  words, small character classes and `.*` gaps, so each one is translated
  into an explicit substring / scan function.  The `/i` flag is modelled by
  ASCII case folding (every pattern constant in the source is ASCII).  The
  `.` metacharacter excludes the JavaScript line terminators.
* Network calls (`fetch`) are modelled by an explicit outcome parameter.
* `Math.log2`-based entropy threshold tests are modelled by the equivalent
  exact integer comparisons `charset ^ length > 2 ^ bound` (exact for the
  real numbers; the double rounding of `Math.log2` cannot cross any of the
  integer thresholds used here for the representable charset sizes).
-/

/-! ## Generic character and string helpers -/

/-- ASCII lowercasing of one character.  Models the ASCII case folding used
by `String.prototype.toLowerCase` and the regex `/i` flag; every pattern
constant in the source is ASCII, so ASCII folding is exact for them. -/
def asciiLower (c : Char) : Char :=
  if 65 ≤ c.toNat ∧ c.toNat ≤ 90 then Char.ofNat (c.toNat + 32) else c

/-- ASCII uppercasing of one character (models `String.prototype.toUpperCase`
on the hex-digit strings it is applied to). -/
def asciiUpper (c : Char) : Char :=
  if 97 ≤ c.toNat ∧ c.toNat ≤ 122 then Char.ofNat (c.toNat - 32) else c

/-- ASCII-lowercase a whole string. -/
def lowerStr (s : String) : String := String.mk (s.data.map asciiLower)

/-- ASCII-uppercase a whole string. -/
def upperStr (s : String) : String := String.mk (s.data.map asciiUpper)

/-- Does `pat` occur at the head of `t`? -/
def isPrefixL : List Char → List Char → Bool
  | [], _ => true
  | _ :: _, [] => false
  | p :: ps, t :: ts => p == t && isPrefixL ps ts

/-- Does `pat` occur as a contiguous substring of `t`?  Models
`String.prototype.includes` and anchors-free literal regex tests. -/
def containsL (pat : List Char) : List Char → Bool
  | [] => isPrefixL pat []
  | c :: cs => isPrefixL pat (c :: cs) || containsL pat cs

/-- Case-sensitive substring test (`hay.includes(pat)`). -/
def containsStr (hay pat : String) : Bool := containsL pat.data hay.data

/-- Case-insensitive substring test (a literal regex with the `/i` flag). -/
def containsCI (hay pat : String) : Bool :=
  containsL (pat.data.map asciiLower) (hay.data.map asciiLower)

/-- ASCII decimal digit. -/
def isDigitC (c : Char) : Bool := 48 ≤ c.toNat && c.toNat ≤ 57

/-- ASCII uppercase letter (the regex class `[A-Z]`). -/
def isUpperC (c : Char) : Bool := 65 ≤ c.toNat && c.toNat ≤ 90

/-- ASCII lowercase letter (the regex class `[a-z]`). -/
def isLowerC (c : Char) : Bool := 97 ≤ c.toNat && c.toNat ≤ 122

/-- JavaScript line terminators, excluded by the regex `.` metacharacter. -/
def isLineTerm (c : Char) : Bool :=
  c == Char.ofNat 10 || c == Char.ofNat 13 || c == Char.ofNat 0x2028 || c == Char.ofNat 0x2029

/-- The apostrophe character (U+0027), used to build pattern and message
strings containing it. -/
def aposC : Char := Char.ofNat 39

/-- The apostrophe as a one-character string. -/
def aposS : String := String.mk [aposC]

/-- Split a character list at every occurrence of a separator character.
Models `String.prototype.split` with a one-character separator: splitting
the empty string gives `[""]`, and adjacent separators give empty pieces. -/
def splitOnCharL (sep : Char) : List Char → List (List Char)
  | [] => [[]]
  | c :: cs =>
      let r := splitOnCharL sep cs
      if c == sep then [] :: r
      else
        match r with
        | [] => [[c]]
        | h :: t => (c :: h) :: t

/-- `s.split(sep)` for a one-character separator, as strings. -/
def splitOnChar (s : String) (sep : Char) : List String :=
  (splitOnCharL sep s.data).map String.mk

/-- Scan for some alternative word immediately, with every skipped character
required to be a non-line-terminator: this models the `.*(w1|w2|…)` tail of
a regex such as `/account.*(suspend|lock|close)/i` after the initial literal
has matched.  Both the text and the alternatives are already lowercased. -/
def scanGapAlts (alts : List (List Char)) : List Char → Bool
  | [] => alts.any (fun a => isPrefixL a [])
  | c :: cs => alts.any (fun a => isPrefixL a (c :: cs)) ||
      (!isLineTerm c && scanGapAlts alts cs)

/-- Case-insensitive model of a regex `/lead.*(a1|a2|…)/i` with no anchors:
somewhere in the text the literal `lead` occurs, and after it one of the
alternatives occurs with only non-line-terminator characters in between. -/
def matchGap (hay lead : String) (alts : List String) : Bool :=
  go (lowerStr lead).data ((alts.map (fun a => (lowerStr a).data))) (lowerStr hay).data
where
  go (lead : List Char) (alts : List (List Char)) : List Char → Bool
    | [] => isPrefixL lead [] && scanGapAlts alts []
    | c :: cs =>
        (isPrefixL lead (c :: cs) && scanGapAlts alts (List.drop lead.length (c :: cs))) ||
        go lead alts cs

/-! ## Password strength evaluator
(`src/app/api/password-check/route.ts`) -/

/-- The `COMMON_PASSWORDS` set of the source (route.ts lines 9–13). -/
def COMMON_PASSWORDS : List String :=
  ["password", "123456", "12345678", "qwerty", "abc123", "password1",
   "111111", "1234567", "iloveyou", "adobe123", "admin", "letmein",
   "welcome", "monkey", "login", "princess", "master", "dragon"]

/-- `PATTERNS.keyboard = /qwerty|asdf|zxcv|1234|qazwsx/i` (route.ts line 17). -/
def PATTERNS.keyboardTest (s : String) : Bool :=
  ["qwerty", "asdf", "zxcv", "1234", "qazwsx"].any (containsCI s)

/-- `PATTERNS.repeated = /(.)\1{2,}/` (route.ts line 18): three or more equal
consecutive characters; `.` excludes line terminators. -/
def repeatedL : List Char → Bool
  | a :: b :: c :: rest => (!isLineTerm a && a == b && b == c) || repeatedL (b :: c :: rest)
  | _ => false

/-- `PATTERNS.repeated` applied to a string. -/
def PATTERNS.repeatedTest (s : String) : Bool := repeatedL s.data

/-- `PATTERNS.sequential = /012|123|234|345|456|567|678|789|890|abc|bcd|cde|def/i`
(route.ts line 19).  Note: the source defines this pattern but `analyzePassword`
never applies it. -/
def PATTERNS.sequentialTest (s : String) : Bool :=
  ["012", "123", "234", "345", "456", "567", "678", "789", "890",
   "abc", "bcd", "cde", "def"].any (containsCI s)

/-- One entry of the `checks` array produced by `analyzePassword`. -/
structure PasswordCheckItem where
  name : String
  passed : Bool
  message : String
deriving DecidableEq

/-- The record returned by `analyzePassword` (route.ts lines 157–163). -/
structure PasswordAnalysis where
  score : Int
  strength : String
  crackTime : String
  checks : List PasswordCheckItem
  suggestions : List String
deriving DecidableEq

/-- Round-half-up division, modelling `Math.round(a / b)` for nonnegative
exact quotients. -/
def roundDiv (a b : Nat) : Nat := (2 * a + b) / (2 * b)

/-- `estimateCrackTime` (route.ts lines 166–181).  The JavaScript function
computes `charsetSize ** length / (2 * 1e10)` in floating point; here the
bucket comparisons and the rounded quotients are computed exactly over the
integers (`seconds < k` iff `combinations < k * 2e10`). -/
def estimateCrackTime (password : String) (charsetSize : Nat) : String :=
  let denom := 2 * 10000000000
  let combinations := charsetSize ^ password.length
  if combinations < 1 * denom then "Instantly"
  else if combinations < 60 * denom then toString (roundDiv combinations denom) ++ " seconds"
  else if combinations < 3600 * denom then toString (roundDiv combinations (60 * denom)) ++ " minutes"
  else if combinations < 86400 * denom then toString (roundDiv combinations (3600 * denom)) ++ " hours"
  else if combinations < 2592000 * denom then toString (roundDiv combinations (86400 * denom)) ++ " days"
  else if combinations < 31536000 * denom then toString (roundDiv combinations (2592000 * denom)) ++ " months"
  else if combinations < 3153600000 * denom then toString (roundDiv combinations (31536000 * denom)) ++ " years"
  else if combinations < 3153600000000 * denom then toString (roundDiv combinations (3153600000 * denom)) ++ " millennia"
  else "Centuries+"

/-- The entropy threshold test `length * Math.log2 (max charsetSize 1) > bound`,
expressed exactly: it holds iff `(max charsetSize 1) ^ length > 2 ^ bound`. -/
def entropyGt (charsetSize length bound : Nat) : Bool :=
  2 ^ bound < (max charsetSize 1) ^ length

/-- `analyzePassword` (route.ts lines 54–164), translated step for step.
Scores are `Int`; each deduction is floored at zero with `max 0 _` exactly as
in the source, and the final score is clamped by `min 100 (max 0 _)`. -/
def analyzePassword (password : String) : PasswordAnalysis :=
  let length := password.length
  -- Length check (lines 60–74)
  let lenScore : Int :=
    if length ≥ 16 then 30 else if length ≥ 12 then 20 else if length ≥ 8 then 10 else 0
  let lenCheck : PasswordCheckItem :=
    if length ≥ 16 then ⟨"length", true, "Excellent length (16+ chars)"⟩
    else if length ≥ 12 then ⟨"length", true, "Good length (12+ chars)"⟩
    else if length ≥ 8 then ⟨"length", true, "Minimum length met"⟩
    else ⟨"length", false, "Too short (minimum 8 chars)"⟩
  let lenSugg : List String :=
    if length ≥ 16 then [] else if length ≥ 12 then []
    else if length ≥ 8 then ["Consider using at least 12 characters for better security"]
    else ["Password should be at least 8 characters long"]
  -- Character variety (lines 77–112)
  let hasUpper := password.data.any isUpperC
  let hasLower := password.data.any isLowerC
  let hasNumber := password.data.any isDigitC
  let hasSpecial := password.data.any (fun c => !isUpperC c && !isLowerC c && !isDigitC c)
  let upperCheck : PasswordCheckItem :=
    if hasUpper then ⟨"uppercase", true, "Contains uppercase letters"⟩
    else ⟨"uppercase", false, "Missing uppercase letters"⟩
  let lowerCheck : PasswordCheckItem :=
    if hasLower then ⟨"lowercase", true, "Contains lowercase letters"⟩
    else ⟨"lowercase", false, "Missing lowercase letters"⟩
  let numberCheck : PasswordCheckItem :=
    if hasNumber then ⟨"numbers", true, "Contains numbers"⟩
    else ⟨"numbers", false, "Missing numbers"⟩
  let specialCheck : PasswordCheckItem :=
    if hasSpecial then ⟨"special", true, "Contains special characters"⟩
    else ⟨"special", false, "Missing special characters"⟩
  let varietySugg : List String :=
    (if hasUpper then [] else ["Add uppercase letters (A-Z)"]) ++
    (if hasLower then [] else ["Add lowercase letters (a-z)"]) ++
    (if hasNumber then [] else ["Add numbers (0-9)"]) ++
    (if hasSpecial then [] else ["Add special characters (!@#$%^&*)"])
  let score1 : Int := lenScore + (if hasUpper then 10 else 0) + (if hasLower then 10 else 0) +
    (if hasNumber then 10 else 0) + (if hasSpecial then 15 else 0)
  -- Common password check (lines 115–119)
  let isCommon := COMMON_PASSWORDS.contains (lowerStr password)
  let score2 : Int := if isCommon then max 0 (score1 - 40) else score1
  -- Pattern checks (lines 122–132)
  let kbd := PATTERNS.keyboardTest password
  let score3 : Int := if kbd then max 0 (score2 - 15) else score2
  let rep := PATTERNS.repeatedTest password
  let score4 : Int := if rep then max 0 (score3 - 10) else score3
  -- Entropy bonus (lines 135–141)
  let charsetSize : Nat := (if hasLower then 26 else 0) + (if hasUpper then 26 else 0) +
    (if hasNumber then 10 else 0) + (if hasSpecial then 32 else 0)
  let entropyBonus : Int :=
    if entropyGt charsetSize length 60 then 15
    else if entropyGt charsetSize length 40 then 10
    else if entropyGt charsetSize length 28 then 5 else 0
  let score5 : Int := score4 + entropyBonus
  -- Cap score (line 144)
  let score : Int := min 100 (max 0 score5)
  -- Strength level (lines 147–152)
  let strength : String :=
    if score < 30 then "weak" else if score < 50 then "fair"
    else if score < 70 then "good" else if score < 90 then "strong" else "excellent"
  { score := score
    strength := strength
    crackTime := estimateCrackTime password charsetSize
    checks := [lenCheck, upperCheck, lowerCheck, numberCheck, specialCheck] ++
      (if isCommon then [⟨"common", false, "This is a commonly used password"⟩] else []) ++
      (if kbd then [⟨"pattern", false, "Contains keyboard pattern"⟩] else []) ++
      (if rep then [⟨"repeated", false, "Contains repeated characters"⟩] else [])
    suggestions := lenSugg ++ varietySugg ++
      (if isCommon then ["Avoid common passwords - this one appears in many breach databases"] else []) ++
      (if kbd then ["Avoid keyboard patterns like " ++ aposS ++ "qwerty" ++ aposS ++ " or " ++ aposS ++ "1234" ++ aposS] else []) ++
      (if rep then ["Avoid repeating the same character multiple times"] else []) }

/-! ## SHA-1 and the k-anonymity breach check
(`crypto.createHash("sha1")` and `checkBreaches`, route.ts lines 183–217) -/

/-- UTF-8 encoding of one character as byte values (models
`crypto.Hash.update` on a JavaScript string). -/
def utf8BytesOfChar (c : Char) : List Nat :=
  let n := c.toNat
  if n < 128 then [n]
  else if n < 2048 then [192 + n / 64, 128 + n % 64]
  else if n < 65536 then [224 + n / 4096, 128 + (n / 64) % 64, 128 + n % 64]
  else [240 + n / 262144, 128 + (n / 4096) % 64, 128 + (n / 64) % 64, 128 + n % 64]

/-- UTF-8 bytes of a string. -/
def utf8Bytes (s : String) : List Nat := s.data.flatMap utf8BytesOfChar

/-- Truncation to a 32-bit word. -/
def w32 (n : Nat) : Nat := n % 4294967296

/-- 32-bit left rotation of a word `n < 2^32` by `s < 32` bits. -/
def rotl (s n : Nat) : Nat := w32 (n * 2 ^ s) + n / 2 ^ (32 - s)

/-- Big-endian 8-byte encoding of the 64-bit message bit length. -/
def beBytes8 (n : Nat) : List Nat :=
  [n / 2 ^ 56 % 256, n / 2 ^ 48 % 256, n / 2 ^ 40 % 256, n / 2 ^ 32 % 256,
   n / 2 ^ 24 % 256, n / 2 ^ 16 % 256, n / 2 ^ 8 % 256, n % 256]

/-- SHA-1 message padding: append `0x80`, zero-pad to 56 mod 64 bytes, then
the big-endian 64-bit bit length. -/
def sha1Pad (msg : List Nat) : List Nat :=
  let len := msg.length
  msg ++ [128] ++ List.replicate ((119 - len % 64) % 64) 0 ++ beBytes8 (len * 8)

/-- Group bytes four at a time into big-endian 32-bit words. -/
def bytesToWords : List Nat → List Nat
  | b0 :: b1 :: b2 :: b3 :: rest =>
      (b0 * 16777216 + b1 * 65536 + b2 * 256 + b3) :: bytesToWords rest
  | _ => []

/-- Split a byte list into 64-byte chunks; the fuel argument bounds the
number of chunks (each step consumes 64 > 0 bytes, so the list length is
always enough fuel). -/
def chunks64F : Nat → List Nat → List (List Nat)
  | 0, _ => []
  | _ + 1, [] => []
  | fuel + 1, x :: xs => ((x :: xs).take 64) :: chunks64F fuel ((x :: xs).drop 64)

/-- Split a byte list into 64-byte chunks. -/
def chunks64 (l : List Nat) : List (List Nat) := chunks64F l.length l

/-- Extend the 16 schedule words by `fuel` more words per the SHA-1 rule. -/
def extendWords : List Nat → Nat → List Nat
  | ws, 0 => ws
  | ws, f + 1 =>
      let n := ws.length
      let wi := rotl 1 (Nat.xor (Nat.xor (ws.getD (n - 3) 0) (ws.getD (n - 8) 0))
        (Nat.xor (ws.getD (n - 14) 0) (ws.getD (n - 16) 0)))
      extendWords (ws ++ [wi]) f

/-- The SHA-1 round function and constant for round `i`. -/
def sha1FK (i b c d : Nat) : Nat × Nat :=
  if i < 20 then (Nat.lor (Nat.land b c) (Nat.land (Nat.xor b 4294967295) d), 1518500249)
  else if i < 40 then (Nat.xor (Nat.xor b c) d, 1859775393)
  else if i < 60 then
    (Nat.lor (Nat.lor (Nat.land b c) (Nat.land b d)) (Nat.land c d), 2400959708)
  else (Nat.xor (Nat.xor b c) d, 3395469782)

/-- One SHA-1 compression step over a 64-byte chunk. -/
def sha1Compress (h : Nat × Nat × Nat × Nat × Nat) (chunk : List Nat) :
    Nat × Nat × Nat × Nat × Nat :=
  let ws := extendWords (bytesToWords chunk) 64
  let st := ws.enum.foldl (fun (st : Nat × Nat × Nat × Nat × Nat) (iw : Nat × Nat) =>
      let (a, b, c, d, e) := st
      let (f, k) := sha1FK iw.1 b c d
      let temp := w32 (rotl 5 a + f + e + k + iw.2)
      (temp, a, rotl 30 b, c, d)) (h.1, h.2.1, h.2.2.1, h.2.2.2.1, h.2.2.2.2)
  (w32 (h.1 + st.1), w32 (h.2.1 + st.2.1), w32 (h.2.2.1 + st.2.2.1),
   w32 (h.2.2.2.1 + st.2.2.2.1), w32 (h.2.2.2.2 + st.2.2.2.2))

/-- The five SHA-1 state words of a byte message. -/
def sha1Words (msg : List Nat) : Nat × Nat × Nat × Nat × Nat :=
  (chunks64 (sha1Pad msg)).foldl sha1Compress
    (1732584193, 4023233417, 2562383102, 271733878, 3285377520)

/-- Lowercase hex digit of a nibble. -/
def hexDigit (n : Nat) : Char := if n < 10 then Char.ofNat (48 + n) else Char.ofNat (87 + n)

/-- Eight lowercase hex digits of a 32-bit word. -/
def hex8 (n : Nat) : List Char :=
  [hexDigit (n / 268435456 % 16), hexDigit (n / 16777216 % 16), hexDigit (n / 1048576 % 16),
   hexDigit (n / 65536 % 16), hexDigit (n / 4096 % 16), hexDigit (n / 256 % 16),
   hexDigit (n / 16 % 16), hexDigit (n % 16)]

/-- Lowercase hex SHA-1 digest of a string, modelling
`crypto.createHash("sha1").update(password).digest("hex")`. -/
def sha1Hex (s : String) : String :=
  let h := sha1Words (utf8Bytes s)
  String.mk (hex8 h.1 ++ hex8 h.2.1 ++ hex8 h.2.2.1 ++ hex8 h.2.2.2.1 ++ hex8 h.2.2.2.2)

/-- The uppercased digest (`.toUpperCase()`, route.ts line 186). -/
def hibpHash (password : String) : String := upperStr (sha1Hex password)

/-- `hash.substring(0, 5)` — the 5-character prefix sent to the range API. -/
def hibpPrefix (password : String) : String := String.mk ((hibpHash password).data.take 5)

/-- `hash.substring(5)` — the remaining suffix, matched locally. -/
def hibpSuffix (password : String) : String := String.mk ((hibpHash password).data.drop 5)

/-- The query URL built by `checkBreaches` (route.ts line 191). -/
def hibpRequestUrl (password : String) : String :=
  "https://api.pwnedpasswords.com/range/" ++ hibpPrefix password

/-- Outcome of the `fetch` network call, supplied as an explicit parameter:
`ok body` is a 2xx response with text `body`, `notOk` a non-2xx response,
`networkError` a thrown error (DNS failure, timeout, …). -/
inductive FetchOutcome where
  | ok (body : String)
  | notOk
  | networkError
deriving DecidableEq

/-- The result of `checkBreaches`.  `count = none` models the JavaScript
`NaN` produced by `parseInt` on a non-numeric count field. -/
structure BreachResult where
  breached : Bool
  count : Option Int
deriving DecidableEq

/-- The JavaScript whitespace class used by `String.prototype.trim`
(restricted to the code points that can occur here). -/
def jsWhitespace (c : Char) : Bool :=
  c == ' ' || c == Char.ofNat 9 || c == Char.ofNat 10 || c == Char.ofNat 13 ||
  c == Char.ofNat 11 || c == Char.ofNat 12 || c == Char.ofNat 160 || c == Char.ofNat 65279

/-- `String.prototype.trim`. -/
def jsTrim (s : String) : String :=
  String.mk (((s.data.dropWhile jsWhitespace).reverse.dropWhile jsWhitespace).reverse)

/-- The value of a nonempty leading run of decimal digits, if any. -/
def digitsVal (l : List Char) : Option Nat :=
  let ds := l.takeWhile isDigitC
  if ds.isEmpty then none
  else some (ds.foldl (fun a c => a * 10 + (c.toNat - 48)) 0)

/-- `parseInt(s, 10)`: skip leading whitespace, optional sign, then a
nonempty digit run (further characters ignored); `none` models `NaN`. -/
def jsParseInt10 (s : String) : Option Int :=
  match s.data.dropWhile jsWhitespace with
  | [] => none
  | c :: cs =>
      if c == '-' then (digitsVal cs).map (fun n => -(n : Int))
      else if c == '+' then (digitsVal cs).map (fun n => (n : Int))
      else (digitsVal (c :: cs)).map (fun n => (n : Int))

/-- The line scan of `checkBreaches` (route.ts lines 205–210): the first line
whose pre-colon part trims to the suffix (case-sensitive `===`) wins; its
count field is parsed with `parseInt(count?.trim() || "1", 10)`. -/
def scanBreachLines (suffix : String) : List String → BreachResult
  | [] => ⟨false, some 0⟩
  | line :: rest =>
      let parts := splitOnChar line ':'
      let hashSuffix := parts.headD ""
      if jsTrim hashSuffix == suffix then
        let cs := match parts[1]? with
          | none => "1"
          | some c => if jsTrim c == "" then "1" else jsTrim c
        ⟨true, jsParseInt10 cs⟩
      else scanBreachLines suffix rest

/-- `checkBreaches` (route.ts lines 183–217): on a 2xx response the body is
split at newlines and scanned; a non-2xx response or a thrown network error
returns `{breached: false, count: 0}` (fail-open). -/
def checkBreaches (password : String) (fetch : FetchOutcome) : BreachResult :=
  match fetch with
  | .ok body => scanBreachLines (hibpSuffix password) (splitOnChar body (Char.ofNat 10))
  | .notOk => ⟨false, some 0⟩
  | .networkError => ⟨false, some 0⟩

/-- The JSON body of a successful password-check response (route.ts lines
39–44); the `timestamp` field is time-dependent and omitted from the model. -/
structure PasswordResponse where
  analysis : PasswordAnalysis
  breached : Bool
  breachCount : Option Int
deriving DecidableEq

/-- The password-check `POST` handler (route.ts lines 22–52).  The request
body field is modelled as `Option String` (`none` = absent or non-string);
the guard `if (!password || typeof password !== "string")` rejects an absent
field and also the empty string, which is falsy in JavaScript. -/
def passwordPOST (password : Option String) (fetch : FetchOutcome) :
    Except String PasswordResponse :=
  match password with
  | none => .error "Password is required"
  | some pw =>
      if pw == "" then .error "Password is required"
      else
        let analysis := analyzePassword pw
        let breach := checkBreaches pw fetch
        .ok ⟨analysis, breach.breached, breach.count⟩

/-! ## Message/SMS scam evaluator
(the SMS scam-detection route, `src/unnamed/part_010`) -/

/-- The JavaScript regex whitespace class `\s` (the code points relevant
here; the messages analysed are ASCII). -/
def isJsSpace (c : Char) : Bool :=
  c == ' ' || c == Char.ofNat 9 || c == Char.ofNat 10 || c == Char.ofNat 11 ||
  c == Char.ofNat 12 || c == Char.ofNat 13 || c == Char.ofNat 160 ||
  c == Char.ofNat 0x1680 || (0x2000 ≤ c.toNat && c.toNat ≤ 0x200A) ||
  c == Char.ofNat 0x2028 || c == Char.ofNat 0x2029 || c == Char.ofNat 0x202F ||
  c == Char.ofNat 0x205F || c == Char.ofNat 0x3000 || c == Char.ofNat 65279

/-- `SCAM_PATTERNS.urgency` (part_010 line 10). -/
def SCAM_PATTERNS.urgencyTest (m : String) : Bool :=
  ["urgent", "immediately", "act now", "expires today", "last chance",
   "limited time"].any (containsCI m)

/-- `SCAM_PATTERNS.prizes` (part_010 line 11); the second pattern has an
optional apostrophe-ve group, so it matches exactly the strings containing
"you won" or the contracted "you-apostrophe-ve won" (ASCII apostrophe). -/
def SCAM_PATTERNS.prizesTest (m : String) : Bool :=
  containsCI m "congratulations" || containsCI m "you won" ||
  containsCI m ("you" ++ aposS ++ "ve won") || containsCI m "winner" ||
  containsCI m "prize" || containsCI m "lottery" || containsCI m "jackpot"

/-- The regex `/\$\d+/i`: a dollar sign immediately followed by a digit. -/
def dollarAmountTest : List Char → Bool
  | a :: b :: rest => (a == '$' && isDigitC b) || dollarAmountTest (b :: rest)
  | _ => false

/-- `SCAM_PATTERNS.money` (part_010 line 12). -/
def SCAM_PATTERNS.moneyTest (m : String) : Bool :=
  dollarAmountTest m.data || containsCI m "free money" || containsCI m "cash prize" ||
  containsCI m "million" || containsCI m "claim your"

/-- `SCAM_PATTERNS.threats` (part_010 line 13). -/
def SCAM_PATTERNS.threatsTest (m : String) : Bool :=
  matchGap m "account" ["suspend", "lock", "close"] ||
  matchGap m "verify" ["now", "immediately"] ||
  containsCI m "unusual activity"

/-- `SCAM_PATTERNS.personal` (part_010 line 14). -/
def SCAM_PATTERNS.personalTest (m : String) : Bool :=
  ["ssn", "social security", "bank account", "credit card", "password"].any (containsCI m)

/-- `SCAM_PATTERNS.delivery` (part_010 line 15). -/
def SCAM_PATTERNS.deliveryTest (m : String) : Bool :=
  matchGap m "package" ["held", "stuck", "customs"] ||
  containsCI m "delivery failed" || containsCI m "tracking" || containsCI m "shipment"

/-- The TLD alternation of the third alternative of `URL_PATTERN`
(part_010 line 18), in source order.  Note the list has no `ly` entry. -/
def URL_TLDS : List String :=
  ["com", "net", "org", "xyz", "top", "click", "link", "site", "online",
   "tk", "ml", "ga", "info", "co"]

/-- The character class `[a-z0-9-]` under the `/i` flag. -/
def urlNameChar (c : Char) : Bool := isLowerC c || isUpperC c || isDigitC c || c == '-'

/-- Case-insensitive literal prefix test of a (lowercase) pattern string. -/
def ciPrefix (pat : String) (l : List Char) : Bool :=
  isPrefixL pat.data (l.map asciiLower)

/-- A literal `.` followed by one of the `URL_TLDS` (case-insensitively). -/
def dotTld : List Char → Bool
  | c :: rest => c == '.' && URL_TLDS.any (fun t => ciPrefix t rest)
  | [] => false

/-- The third `URL_PATTERN` alternative `[a-z0-9-]+\.(com|…|co)[^\s]*` matches
at the head of `l`: one or more name characters, then a dot and a TLD. -/
def alt3From : List Char → Bool
  | [] => false
  | c :: cs => urlNameChar c && (dotTld cs || alt3From cs)

/-- Is the character after dropping `n` a non-space (for the `[^\s]+` tail)? -/
def nonSpaceAfter (n : Nat) (l : List Char) : Bool :=
  match l.drop n with
  | c :: _ => !isJsSpace c
  | [] => false

/-- Some alternative of `URL_PATTERN` matches at the head of `l`.  Each
alternative starts with a non-space character and, once the mandatory part
has matched, its greedy `[^\s]*` / `[^\s]+` tail extends the match to the
first whitespace character, so the matched substring is always the maximal
non-space run starting at the match position. -/
def urlAltAt (l : List Char) : Bool :=
  (ciPrefix "http://" l && nonSpaceAfter 7 l) ||
  (ciPrefix "https://" l && nonSpaceAfter 8 l) ||
  (ciPrefix "www." l && nonSpaceAfter 4 l) ||
  alt3From l

/-- Global scan of `message.match(URL_PATTERN)`: find each leftmost match,
emit the non-space run from its start, and continue after it.  The fuel
argument bounds the number of scan steps; every step consumes at least one
character, so fuel equal to the text length is always enough. -/
def extractUrlRuns : Nat → List Char → List (List Char)
  | 0, _ => []
  | _ + 1, [] => []
  | fuel + 1, c :: cs =>
      if urlAltAt (c :: cs) then
        (c :: cs.takeWhile (fun x => !isJsSpace x)) ::
          extractUrlRuns fuel (cs.dropWhile (fun x => !isJsSpace x))
      else extractUrlRuns fuel cs

/-- `message.match(URL_PATTERN) || []` as a list of strings. -/
def urlPatternMatch (s : String) : List String :=
  (extractUrlRuns s.data.length s.data).map String.mk

/-- The `suspiciousTLDs` list of `isSuspiciousURL` (part_010 line 103). -/
def smsSuspiciousTLDs : List String :=
  [".xyz", ".top", ".click", ".link", ".site", ".online", ".tk", ".ml", ".ga"]

/-- The `shorteners` list of `isSuspiciousURL` (part_010 line 104). -/
def smsShorteners : List String := ["bit.ly", "tinyurl", "t.co", "goo.gl", "ow.ly"]

/-- The expansion of `/(paypa[l1]|amaz[o0]n|g[o0]{2}gle|micr[o0]s[o0]ft)/i`:
every concrete word the character classes can produce. -/
def brandVariants : List String :=
  ["paypal", "paypa1", "amazon", "amaz0n", "google", "go0gle", "g0ogle", "g00gle",
   "microsoft", "micr0soft", "micros0ft", "micr0s0ft"]

/-- The candidate rests after consuming between 1 and `n` decimal digits. -/
def restsAfterDigits : Nat → List Char → List (List Char)
  | 0, _ => []
  | n + 1, l =>
      match l with
      | c :: cs => if isDigitC c then cs :: restsAfterDigits n cs else []
      | [] => []

/-- The unanchored regex `/\d{1,3}\.\d{1,3}\.\d{1,3}\.\d{1,3}/` matches at
the head of `l`. -/
def ipv4At (l : List Char) : Bool :=
  (restsAfterDigits 3 l).any (fun r1 =>
    match r1 with
    | c1 :: r1b => c1 == '.' && (restsAfterDigits 3 r1b).any (fun r2 =>
        match r2 with
        | c2 :: r2b => c2 == '.' && (restsAfterDigits 3 r2b).any (fun r3 =>
            match r3 with
            | c3 :: r3b => c3 == '.' && !(restsAfterDigits 3 r3b).isEmpty
            | [] => false)
        | [] => false)
    | [] => false)

/-- The unanchored dotted-quad regex matches somewhere in `l`. -/
def ipv4Sub : List Char → Bool
  | [] => false
  | c :: cs => ipv4At (c :: cs) || ipv4Sub cs

/-- `isSuspiciousURL` (part_010 lines 102–113). -/
def isSuspiciousURL (url : String) : Bool :=
  let lower := lowerStr url
  smsSuspiciousTLDs.any (fun t => containsStr lower t) ||
  smsShorteners.any (fun t => containsStr lower t) ||
  ipv4Sub lower.data ||
  brandVariants.any (fun b => containsCI lower b)

/-- One entry of `extractLinks`. -/
structure LinkInfo where
  url : String
  safe : Bool
deriving DecidableEq

/-- `extractLinks` (part_010 lines 94–100). -/
def extractLinks (message : String) : List LinkInfo :=
  (urlPatternMatch message).map (fun url => ⟨url, !isSuspiciousURL url⟩)

/-- Characters accepted by the phone regex separator class `[-.\s]`. -/
def phoneSepChar (c : Char) : Bool := c == '-' || c == '.' || isJsSpace c

/-- Greedy-first candidate rests for an optional single-character piece
`X?`: first the rest with the character consumed (if it matches), then the
rest with nothing consumed. -/
def optRests (cond : Char → Bool) (l : List Char) : List (List Char) :=
  match l with
  | c :: cs => if cond c then [cs, l] else [l]
  | [] => [l]

/-- Consume exactly `n` decimal digits. -/
def exactDigits : Nat → List Char → Option (List Char)
  | 0, l => some l
  | n + 1, c :: cs => if isDigitC c then exactDigits n cs else none
  | _ + 1, [] => none

/-- Try a continuation on each candidate rest in backtracking order. -/
def firstSomeRest (cands : List (List Char)) (k : List Char → Option (List Char)) :
    Option (List Char) :=
  match cands with
  | [] => none
  | c :: cs =>
      match k c with
      | some r => some r
      | none => firstSomeRest cs k

/-- `PHONE_PATTERN = /(\+?1?[-.\s]?)?\(?\d{3}\)?[-.\s]?\d{3}[-.\s]?\d{4}/g`
(part_010 line 19) matched at the head of `l`, with the greedy backtracking
order of the JavaScript engine; returns the rest after the match. -/
def phoneMatchAt (l : List Char) : Option (List Char) :=
  firstSomeRest ((optRests (fun c => c == '+') l).flatMap (fun r1 =>
      (optRests (fun c => c == '1') r1).flatMap (fun r2 =>
        optRests phoneSepChar r2))) (fun rGroup =>
    firstSomeRest (optRests (fun c => c == '(') rGroup) (fun r2 =>
      match exactDigits 3 r2 with
      | none => none
      | some r3 =>
          firstSomeRest (optRests (fun c => c == ')') r3) (fun r4 =>
            firstSomeRest (optRests phoneSepChar r4) (fun r5 =>
              match exactDigits 3 r5 with
              | none => none
              | some r6 =>
                  firstSomeRest (optRests phoneSepChar r6) (fun r7 =>
                    exactDigits 4 r7)))))

/-- Global scan of `message.match(PHONE_PATTERN)`; the fuel argument bounds
the number of scan steps by the text length. -/
def scanPhones : Nat → List Char → List String
  | 0, _ => []
  | _ + 1, [] => []
  | fuel + 1, c :: cs =>
      match phoneMatchAt (c :: cs) with
      | some rest =>
          String.mk ((c :: cs).take ((c :: cs).length - rest.length)) ::
            scanPhones fuel rest
      | none => scanPhones fuel cs

/-- `message.match(PHONE_PATTERN) || []` as a list of strings. -/
def phonePatternMatch (s : String) : List String := scanPhones s.data.length s.data

/-- One red flag produced by `detectRedFlags`. -/
structure RedFlag where
  flag : String
  explanation : String
deriving DecidableEq

/-- `detectRedFlags` (part_010 lines 115–170): at most one flag per keyword
family, plus one flag when some extracted URL is suspicious. -/
def detectRedFlags (message : String) : List RedFlag :=
  (if SCAM_PATTERNS.urgencyTest message then
    [⟨"Urgency Tactics",
      "Creates artificial urgency to pressure you into acting without thinking"⟩] else []) ++
  (if SCAM_PATTERNS.prizesTest message then
    [⟨"Prize/Lottery Scam",
      "Claims you" ++ aposS ++ "ve won something you never entered - classic scam technique"⟩] else []) ++
  (if SCAM_PATTERNS.moneyTest message then
    [⟨"Money-related Claims",
      "Promises of money or requests for payment are common in scams"⟩] else []) ++
  (if SCAM_PATTERNS.threatsTest message then
    [⟨"Account Threat",
      "Threatens account suspension to scare you into clicking malicious links"⟩] else []) ++
  (if SCAM_PATTERNS.personalTest message then
    [⟨"Personal Info Request",
      "Legitimate companies never ask for sensitive info via SMS"⟩] else []) ++
  (if SCAM_PATTERNS.deliveryTest message then
    [⟨"Delivery Scam",
      "Fake delivery notifications are a common phishing technique"⟩] else []) ++
  (if (urlPatternMatch message).any isSuspiciousURL then
    [⟨"Suspicious Link",
      "Contains a link to a potentially dangerous website"⟩] else [])

/-- `determineScamType` (part_010 lines 172–181). -/
def determineScamType (flags : List RedFlag) : String :=
  let flagNames := flags.map (fun f => lowerStr f.flag)
  if flagNames.any (fun f => containsStr f "prize" || containsStr f "lottery") then
    "Prize/Lottery Scam"
  else if flagNames.any (fun f => containsStr f "delivery") then "Delivery Scam"
  else if flagNames.any (fun f => containsStr f "account") then "Account Phishing"
  else if flagNames.any (fun f => containsStr f "money") then "Financial Scam"
  else if flagNames.any (fun f => containsStr f "personal") then "Identity Theft Attempt"
  else "Suspicious Message"

/-- `getDefaultAdvice` (part_010 lines 183–198). -/
def getDefaultAdvice (isScam : Bool) : List String :=
  if isScam then
    ["Do NOT click any links in this message",
     "Do NOT reply or provide any personal information",
     "Block the sender" ++ aposS ++ "s number",
     "Report this message to your carrier (forward to 7726/SPAM)",
     "Delete the message"]
  else
    ["The message appears safe, but always stay vigilant",
     "If you" ++ aposS ++ "re unsure, contact the company directly through their official website",
     "Never share sensitive information via SMS"]

/-- A parsed result of the optional Gemini analysis (`getAIAnalysis`); the
route only proceeds with it when the network call succeeded and its body
parsed, so the model takes it as an `Option` parameter. -/
structure SmsAIResult where
  isScam : Bool
  scamType : String
  summary : String
  advice : List String
deriving DecidableEq

/-- The score accumulated from the red flags and the suspicious-link bonus
(part_010 lines 40–41), before the phone co-occurrence bonus and the clamp. -/
def smsBaseScore (message : String) : Int :=
  (detectRedFlags message).length * 15 +
  (if (extractLinks message).any (fun l => !l.safe) then 25 else 0)

/-- The clamped heuristic risk score (part_010 lines 40–43). -/
def smsHeuristicScore (message : String) : Int :=
  min 100 (smsBaseScore message +
    (if (phonePatternMatch message).length > 0 &&
        (detectRedFlags message).length > 0 then 10 else 0))

/-- The final risk score after the optional AI nudges (part_010 lines 58–61):
the two `if` statements run in sequence on the mutable `riskScore`. -/
def smsFinalScore (message : String) (ai : Option SmsAIResult) : Int :=
  let h := smsHeuristicScore message
  match ai with
  | none => h
  | some a =>
      let s1 := if a.isScam && decide (h < 50) then 60 else h
      if !a.isScam && decide (s1 < 30) then max 0 (s1 - 10) else s1

/-- The risk-level thresholds of the SMS route (part_010 lines 65–70). -/
def smsRiskLevel (score : Int) : String :=
  if score ≥ 80 then "critical" else if score ≥ 60 then "high"
  else if score ≥ 40 then "medium" else if score ≥ 20 then "low" else "safe"

/-- The JSON body returned by the SMS route (part_010 lines 72–83); the
time-dependent `analyzedAt` field is omitted from the model. -/
structure SmsResponse where
  isScam : Bool
  confidence : Int
  scamType : String
  riskLevel : String
  redFlags : List RedFlag
  extractedLinks : List LinkInfo
  extractedPhones : List String
  aiSummary : String
  advice : List String
deriving DecidableEq

/-- The SMS `POST` handler body for a nonempty string message (part_010
lines 32–83).  `ai = none` is the heuristic path (no API key, or the AI call
failed); `ai = some a` models a parsed AI result, which overwrites the
default `aiAnalysis` and nudges the score. -/
def smsPOST (message : String) (ai : Option SmsAIResult) : SmsResponse :=
  let redFlags := detectRedFlags message
  let links := extractLinks message
  let phones := phonePatternMatch message
  let h := smsHeuristicScore message
  let aiAnalysis : SmsAIResult :=
    match ai with
    | none => ⟨decide (h ≥ 40), determineScamType redFlags,
        "Basic pattern analysis complete.", getDefaultAdvice (decide (h ≥ 40))⟩
    | some a => a
  let riskScore := smsFinalScore message ai
  { isScam := decide (riskScore ≥ 40)
    confidence := min 99 (riskScore + 20)
    scamType := aiAnalysis.scamType
    riskLevel := smsRiskLevel riskScore
    redFlags := redFlags
    extractedLinks := links
    extractedPhones := phones.take 3
    aiSummary := aiAnalysis.summary
    advice := aiAnalysis.advice }

/-- The SMS route including the request guard (part_010 lines 25–30): an
absent, non-string or empty (falsy) `message` is rejected with a 400. -/
def smsPOSTroute (message : Option String) (ai : Option SmsAIResult) :
    Except String SmsResponse :=
  match message with
  | none => .error "Message is required"
  | some m => if m == "" then .error "Message is required" else .ok (smsPOST m ai)

/-! ## URL risk evaluator
(`src/app/api/url-check/route.ts`) -/

/-- `SUSPICIOUS_TLDS` (url-check route.ts line 9). -/
def SUSPICIOUS_TLDS : List String :=
  [".xyz", ".top", ".click", ".link", ".work", ".online", ".site", ".tk", ".ml", ".ga"]

/-- `URL_SHORTENERS` (url-check route.ts line 11). -/
def URL_SHORTENERS : List String :=
  ["bit.ly", "tinyurl.com", "t.co", "goo.gl", "ow.ly", "is.gd", "buff.ly"]

/-- Suffix test on strings (`String.prototype.endsWith`). -/
def endsWithL (s t : String) : Bool := isPrefixL t.data.reverse s.data.reverse

/-- `PHISHING_PATTERNS` (url-check route.ts lines 13–17): each entry is the
test function of one regex (character classes expanded into their concrete
words, `.*` gaps via `matchGap`) paired with its `toString()` rendering. -/
def PHISHING_PATTERNS : List ((String → Bool) × String) :=
  [(fun s => containsCI s "paypal" || containsCI s "paypa1", "/paypa[l1]/i"),
   (fun s => containsCI s "amazon" || containsCI s "amaz0n", "/amaz[o0]n/i"),
   (fun s => ["google", "go0gle", "g0ogle", "g00gle"].any (containsCI s),
     "/g[o0]\x7b2\x7dgle/i"),
   (fun s => ["facebook", "facebo0k", "faceb0ok", "faceb00k"].any (containsCI s),
     "/faceb[o0]\x7b2\x7dk/i"),
   (fun s => ["microsoft", "micr0soft", "micros0ft", "micr0s0ft"].any (containsCI s),
     "/micr[o0]s[o0]ft/i"),
   (fun s => containsCI s "apple" || containsCI s "app1e", "/app[l1]e/i"),
   (fun s => containsCI s "netflix" || containsCI s "netf1ix", "/netf[l1]ix/i"),
   (fun s => matchGap s "secure-" ["login"], "/secure-.*login/i"),
   (fun s => matchGap s "verify-" ["account"], "/verify-.*account/i"),
   (fun s => matchGap s "update-" ["info"], "/update-.*info/i"),
   (fun s => matchGap s "login-" ["secure"], "/login-.*secure/i")]

/-- The anchored dotted-quad regex `/^\d{1,3}\.\d{1,3}\.\d{1,3}\.\d{1,3}$/`
(url-check route.ts line 99). -/
def ipv4Exact (l : List Char) : Bool :=
  (restsAfterDigits 3 l).any (fun r1 =>
    match r1 with
    | c1 :: r1b => c1 == '.' && (restsAfterDigits 3 r1b).any (fun r2 =>
        match r2 with
        | c2 :: r2b => c2 == '.' && (restsAfterDigits 3 r2b).any (fun r3 =>
            match r3 with
            | c3 :: r3b => c3 == '.' && (restsAfterDigits 3 r3b).any (fun r4 => r4.isEmpty)
            | [] => false)
        | [] => false)
    | [] => false)

/-- The components of a successfully parsed WHATWG URL that the route reads:
`protocol` (with trailing colon), `hostname` (normalised), `pathname`, and
the serialised `href`. -/
structure ParsedURL where
  protocol : String
  hostname : String
  pathname : String
  href : String
deriving DecidableEq

/-- The `wellKnownDomains` list of `estimateDomainAge` (route.ts line 167). -/
def wellKnownDomains : List String :=
  ["google.com", "facebook.com", "amazon.com", "microsoft.com", "apple.com", "github.com"]

/-- `estimateDomainAge` (url-check route.ts lines 164–178). -/
def estimateDomainAge (domain : String) : String :=
  if wellKnownDomains.any (fun d => endsWithL domain d) then "10+ years (established)"
  else if SUSPICIOUS_TLDS.any (fun t => endsWithL domain t) then "< 1 year (recent)"
  else "Unknown"

/-- The `details` object of the URL analysis (route.ts lines 153–159). -/
structure UrlDetails where
  domain : String
  registrationAge : String
  ssl : Bool
  redirects : Bool
  suspiciousPatterns : List String
deriving DecidableEq

/-- The record returned by `analyzeURL` (route.ts lines 147–161). -/
structure UrlAnalysis where
  url : String
  safe : Bool
  riskLevel : String
  riskScore : Int
  threats : List String
  details : UrlDetails
  recommendations : List String
deriving DecidableEq

/-- The risk-level thresholds of the URL route (route.ts lines 131–136),
applied to the raw (pre-clamp) accumulated score. -/
def urlTier (riskScore : Int) : String :=
  if riskScore ≥ 70 then "critical" else if riskScore ≥ 50 then "high"
  else if riskScore ≥ 30 then "medium" else if riskScore ≥ 15 then "low" else "safe"

/-- The raw risk score accumulated by `analyzeURL` (route.ts lines 68–127)
before the final clamp.  The nine checks never depend on the running score,
so the sequential `riskScore += w` updates are written as one sum in source
order. -/
def urlRiskScoreRaw (parsedUrl : ParsedURL) (domain : String) : Int :=
  let isHTTPS := parsedUrl.protocol == "https:"
  let hasSuspiciousTLD := SUSPICIOUS_TLDS.any (fun t => endsWithL domain t)
  let isShortener := URL_SHORTENERS.any (fun s => containsStr domain s)
  let matchedPatterns := PHISHING_PATTERNS.filter
    (fun p => p.1 domain || p.1 parsedUrl.pathname)
  let isIPAddress := ipv4Exact domain.data
  let manySubdomains := (splitOnChar domain (Char.ofNat 46)).length > 3
  let hyphenKeyword := containsStr domain "-" &&
    (containsStr domain "login" || containsStr domain "secure" || containsStr domain "verify")
  let dangerousScheme := parsedUrl.protocol == "data:" || parsedUrl.protocol == "javascript:"
  let longUrl := parsedUrl.href.length > 200
  (if !isHTTPS then 20 else 0) + (if hasSuspiciousTLD then 25 else 0) +
  (if isShortener then 15 else 0) + (if !matchedPatterns.isEmpty then 40 else 0) +
  (if isIPAddress then 30 else 0) + (if manySubdomains then 15 else 0) +
  (if hyphenKeyword then 20 else 0) + (if dangerousScheme then 50 else 0) +
  (if longUrl then 10 else 0)

/-- The `threats` array pushed by `analyzeURL` (route.ts lines 67–127), in
source order. -/
def urlThreats (parsedUrl : ParsedURL) (domain : String) : List String :=
  let isHTTPS := parsedUrl.protocol == "https:"
  let hasSuspiciousTLD := SUSPICIOUS_TLDS.any (fun t => endsWithL domain t)
  let isShortener := URL_SHORTENERS.any (fun s => containsStr domain s)
  let matchedPatterns := PHISHING_PATTERNS.filter
    (fun p => p.1 domain || p.1 parsedUrl.pathname)
  let isIPAddress := ipv4Exact domain.data
  let manySubdomains := (splitOnChar domain (Char.ofNat 46)).length > 3
  let hyphenKeyword := containsStr domain "-" &&
    (containsStr domain "login" || containsStr domain "secure" || containsStr domain "verify")
  let dangerousScheme := parsedUrl.protocol == "data:" || parsedUrl.protocol == "javascript:"
  let longUrl := parsedUrl.href.length > 200
  (if !isHTTPS then ["URL uses HTTP instead of secure HTTPS"] else []) ++
  (if hasSuspiciousTLD then ["Suspicious top-level domain (TLD)"] else []) ++
  (if isShortener then ["URL shortener detected - final destination hidden"] else []) ++
  (if !matchedPatterns.isEmpty then
    ["Potential brand impersonation/typosquatting detected"] else []) ++
  (if isIPAddress then ["URL uses IP address instead of domain name"] else []) ++
  (if manySubdomains then ["Multiple subdomains detected (common in phishing)"] else []) ++
  (if hyphenKeyword then ["Suspicious keyword combination in domain"] else []) ++
  (if dangerousScheme then ["Dangerous URL scheme detected"] else []) ++
  (if longUrl then ["Unusually long URL (may hide actual destination)"] else [])

/-- `analyzeURL` (url-check route.ts lines 66–162).  `threats` and
`recommendations` collect the pushed strings in source order; the returned
`riskScore` is the clamp `min 100` of the raw accumulated score, while
`riskLevel` and `safe` are computed from the raw score (which only differs
from the clamped one above 100, where both give "critical" / unsafe). -/
def analyzeURL (parsedUrl : ParsedURL) (domain : String) : UrlAnalysis :=
  let isHTTPS := parsedUrl.protocol == "https:"
  let isShortener := URL_SHORTENERS.any (fun s => containsStr domain s)
  let matchedPatterns := PHISHING_PATTERNS.filter
    (fun p => p.1 domain || p.1 parsedUrl.pathname)
  let riskScore : Int := urlRiskScoreRaw parsedUrl domain
  let threats : List String := urlThreats parsedUrl domain
  let recommendations : List String :=
    (if !isHTTPS then ["Always prefer HTTPS websites for secure data transmission"] else []) ++
    (if isShortener then
      ["Use a URL expander to see the actual destination before clicking"] else []) ++
    (if riskScore ≥ 30 then ["Do not enter personal information on this website"] else []) ++
    (if riskScore ≥ 50 then ["Do not visit this URL - it may be dangerous"] else []) ++
    (if !matchedPatterns.isEmpty then
      ["Navigate directly to the official website instead of clicking this link"] else []) ++
    (if threats.isEmpty then ["Still exercise caution - no analysis is 100% accurate"] else [])
  { url := parsedUrl.href
    safe := decide (riskScore < 30)
    riskLevel := urlTier riskScore
    riskScore := min 100 riskScore
    threats := threats
    details :=
      { domain := domain
        registrationAge := estimateDomainAge domain
        ssl := isHTTPS
        redirects := isShortener
        suspiciousPatterns := matchedPatterns.map (fun p => p.2) }
    recommendations := recommendations }

/-! ## Model of the platform URL parser (`new URL`)

The route delegates URL parsing to the WHATWG URL parser built into the
runtime.  The model below covers the fragment this route exercises: input
trimming, scheme recognition and lowercasing, and the authority (host/port)
syntax validation of the special schemes.  Host normalisation is simplified
to ASCII lowercasing — IDNA/punycode mapping, IPv4 canonicalisation,
percent-decoding and bracketed-IPv6 validation are not modelled; the claims
proved through this parser concern only parse success/failure and the
`protocol` field, never those normalisations.  (`file:`, whose empty host is
legal in WHATWG, is unreachable from this route: a non-prefixed input starts
with "http", so its scheme does too, and a prefixed input is `https:`.) -/

/-- C0 controls and space, trimmed from both ends of the parser input. -/
def isC0OrSpace (c : Char) : Bool := c.toNat ≤ 32

/-- ASCII tab and newline, removed everywhere from the parser input. -/
def isTabOrNewline (c : Char) : Bool :=
  c == Char.ofNat 9 || c == Char.ofNat 10 || c == Char.ofNat 13

/-- Input preprocessing of the WHATWG parser: trim leading and trailing
C0-control-or-space characters, then remove all tabs and newlines. -/
def urlPreprocess (l : List Char) : List Char :=
  (((l.dropWhile isC0OrSpace).reverse.dropWhile isC0OrSpace).reverse).filter
    (fun c => !isTabOrNewline c)

/-- A scheme starts with an ASCII letter. -/
def isSchemeStartChar (c : Char) : Bool := isUpperC c || isLowerC c

/-- Subsequent scheme characters: ASCII alphanumeric, `+`, `-`, `.`. -/
def isSchemeChar (c : Char) : Bool :=
  isUpperC c || isLowerC c || isDigitC c || c == '+' || c == '-' || c == '.'

/-- Consume scheme characters until the mandatory `:`; returns the
lowercased scheme and the rest.  An invalid character or a missing colon
means the input has no scheme, which fails (the route never passes a base
URL). -/
def schemeTail (acc : List Char) : List Char → Option (List Char × List Char)
  | [] => none
  | c :: cs =>
      if c == ':' then some (acc.reverse.map asciiLower, cs)
      else if isSchemeChar c then schemeTail (c :: acc) cs
      else none

/-- Split off the scheme of a preprocessed URL string. -/
def splitScheme : List Char → Option (List Char × List Char)
  | [] => none
  | c :: cs => if isSchemeStartChar c then schemeTail [c] cs else none

/-- The WHATWG special schemes. -/
def specialSchemes : List String := ["ftp", "file", "http", "https", "ws", "wss"]

/-- Forward or back slash (special schemes treat both alike). -/
def isSlash (c : Char) : Bool := c == '/' || c == Char.ofNat 92

/-- Characters forbidden in a (non-bracketed) host. -/
def forbiddenHostChar (c : Char) : Bool :=
  c.toNat == 0 || c == ' ' || c == '#' || c == '/' || c == ':' || c == '<' ||
  c == '>' || c == '?' || c == '@' || c == Char.ofNat 91 || c == Char.ofNat 92 ||
  c == Char.ofNat 93 || c == '^' || c == '|'

/-- The authority ends at the first `/`, `\`, `?` or `#`. -/
def isAuthorityEnd (c : Char) : Bool :=
  c == '/' || c == Char.ofNat 92 || c == '?' || c == '#'

/-- Drop the userinfo: the host-port part is what follows the last `@`. -/
def hostPortPart (auth : List Char) : List Char :=
  if auth.contains '@' then (auth.reverse.takeWhile (fun c => c != '@')).reverse else auth

/-- Numeric value of a digit list. -/
def portVal (l : List Char) : Nat := l.foldl (fun a c => a * 10 + (c.toNat - 48)) 0

/-- Split the host-port part at the last colon (outside brackets), validate
the host characters, and lowercase the host.  Returns `(hostname, port
digits)`, or `none` on a syntax error. -/
def parseHostPort (hp : List Char) : Option (List Char × List Char) :=
  if hp.head? == some (Char.ofNat 91) then
    let host := hp.takeWhile (fun c => c != Char.ofNat 93)
    match hp.dropWhile (fun c => c != Char.ofNat 93) with
    | [] => none
    | _ :: rest =>
        match rest with
        | [] => some (host ++ [Char.ofNat 93], [])
        | c :: port => if c == ':' then some (host ++ [Char.ofNat 93], port) else none
  else
    let hostAndPort : List Char × List Char :=
      if hp.contains ':' then
        (((hp.reverse.dropWhile (fun c => c != ':')).tail).reverse,
         (hp.reverse.takeWhile (fun c => c != ':')).reverse)
      else (hp, [])
    if hostAndPort.1.any forbiddenHostChar then none
    else some (hostAndPort.1.map asciiLower, hostAndPort.2)

/-- Authority, host, port and path parsing for a special scheme: skip any
run of slashes, read the authority up to `/`, `\`, `?` or `#`, validate host
and port (digits only, at most 65535, empty allowed), then take the path up
to the query/fragment, normalising `\` to `/` and defaulting to "/". -/
def parseSpecialAfterScheme (scheme : List Char) (rest : List Char) : Option ParsedURL :=
  let rest1 := rest.dropWhile isSlash
  let auth := rest1.takeWhile (fun c => !isAuthorityEnd c)
  let afterAuth := rest1.dropWhile (fun c => !isAuthorityEnd c)
  match parseHostPort (hostPortPart auth) with
  | none => none
  | some (hostname, port) =>
      if hostname.isEmpty then none
      else if !port.all isDigitC then none
      else if !port.isEmpty && portVal port > 65535 then none
      else
        let pathRaw := afterAuth.takeWhile (fun c => c != '?' && c != '#')
        let queryFrag := afterAuth.dropWhile (fun c => c != '?' && c != '#')
        let path := pathRaw.map (fun c => if c == Char.ofNat 92 then '/' else c)
        let pathname := if path.isEmpty then ['/'] else path
        some { protocol := String.mk (scheme ++ [':'])
               hostname := String.mk hostname
               pathname := String.mk pathname
               href := String.mk (scheme ++ [':', '/', '/'] ++ hostname ++
                 (if port.isEmpty then [] else ':' :: port) ++ pathname ++ queryFrag) }

/-- The parser model.  A non-special scheme gets an opaque path and an empty
hostname (a non-special authority is not modelled; through this route a
non-special scheme can only arise from an input that starts with "http", and
only the `protocol` field of such a parse is ever significant). -/
def parseURL (s : String) : Option ParsedURL :=
  match splitScheme (urlPreprocess s.data) with
  | none => none
  | some (scheme, rest) =>
      if specialSchemes.contains (String.mk scheme) then
        parseSpecialAfterScheme scheme rest
      else
        some { protocol := String.mk (scheme ++ [':'])
               hostname := ""
               pathname := String.mk (rest.takeWhile (fun c => c != '?' && c != '#'))
               href := String.mk (scheme ++ [':'] ++ rest) }

/-- `String.prototype.startsWith`. -/
def startsWithL (s t : String) : Bool := isPrefixL t.data s.data

/-- Result of the URL-check `POST` handler. -/
inductive UrlPostResult where
  | badRequest (error : String)
  | ok (analysis : UrlAnalysis)
deriving DecidableEq

/-- The URL-check `POST` handler (url-check route.ts lines 19–64).  The
`url` body field is `Option String` (`none` = absent or non-string; the
empty string is falsy and also rejected).  `ai = some (threats, recs)`
models a successful Gemini augmentation, which the route only applies when
an API key is configured and `riskScore > 20`; it appends to `threats` and
`recommendations` and never changes the score. -/
def urlPOST (url : Option String) (ai : Option (List String × List String)) :
    UrlPostResult :=
  match url with
  | none => .badRequest "URL is required"
  | some u =>
      if u == "" then .badRequest "URL is required"
      else
        let urlWithProtocol := if startsWithL u "http" then u else "https://" ++ u
        match parseURL urlWithProtocol with
        | none => .badRequest "Invalid URL format"
        | some parsedUrl =>
            let analysis := analyzeURL parsedUrl (lowerStr parsedUrl.hostname)
            match ai with
            | some extra =>
                if analysis.riskScore > 20 then
                  .ok { analysis with
                        threats := analysis.threats ++ extra.1
                        recommendations := analysis.recommendations ++ extra.2 }
                else .ok analysis
            | none => .ok analysis

/-! ## Claim-specific inputs and spec-side definitions -/

/-- The exact message of the specification test (§8): `Congratulations!
You’ve won $1,000,000! Click bit.ly/win123` (ASCII apostrophe). -/
def msgSpecC3 : String :=
  "Congratulations! You" ++ aposS ++ "ve won $1,000,000! Click bit.ly/win123"

/-- The same message with an explicit protocol on the link, which is the
smallest change that makes `URL_PATTERN` extract it. -/
def msgFixedC3 : String :=
  "Congratulations! You" ++ aposS ++ "ve won $1,000,000! Click https://bit.ly/win123"

/-- A message with a suspicious link and no keyword-family match. -/
def msgC4 : String := "Click https://bit.ly/x"

/-- A password containing the sequential run "123" that is otherwise free of
keyboard patterns, repeats and common passwords. -/
def pwC6 : String := "Aq!x9mNp123Qr"

/-- Spec-side definition for claim C4: the number of the six keyword-pattern
families (urgency, prize, money, account-threat, personal-info, delivery)
that match the message.  Follows the claim wording; compare with
`smsBaseScore`, which counts `detectRedFlags` (including its seventh,
suspicious-link flag). -/
def familyMatchCount (message : String) : Int :=
  (if SCAM_PATTERNS.urgencyTest message then 1 else 0) +
  (if SCAM_PATTERNS.prizesTest message then 1 else 0) +
  (if SCAM_PATTERNS.moneyTest message then 1 else 0) +
  (if SCAM_PATTERNS.threatsTest message then 1 else 0) +
  (if SCAM_PATTERNS.personalTest message then 1 else 0) +
  (if SCAM_PATTERNS.deliveryTest message then 1 else 0)

/-- Spec-side definition for claim C7: the input carries a protocol, i.e. a
syntactically valid scheme terminated by a colon (after WHATWG input
preprocessing). -/
def hasScheme (s : String) : Bool := (splitScheme (urlPreprocess s.data)).isSome

/-- A concrete parse of "https://bit.ly", used to instantiate the universal
theorems about the URL route. -/
def parsedBitly : ParsedURL := ⟨"https:", "bit.ly", "/", "https://bit.ly/"⟩

/-- The trailing-trim-and-filter part of `urlPreprocess`, applied to the
part of the input after a fixed non-blank prefix. -/
def urlPreprocessTail (s : List Char) : List Char :=
  ((s.reverse.dropWhile isC0OrSpace).reverse).filter (fun c => !isTabOrNewline c)

/-! ## Helper lemmas -/

/-- A conditional weight with zero alternative is nonnegative. -/
theorem ite_nonneg_int (c : Prop) [Decidable c] (w : Int) (hw : 0 ≤ w) :
    0 ≤ if c then w else 0 := by split <;> simp [hw]

/-- The raw URL risk score is a sum of nonnegative conditional weights. -/
theorem urlRiskScoreRaw_nonneg (u : ParsedURL) (d : String) : 0 ≤ urlRiskScoreRaw u d := by
  simp only [urlRiskScoreRaw]
  refine add_nonneg (add_nonneg (add_nonneg (add_nonneg (add_nonneg (add_nonneg
    (add_nonneg (add_nonneg ?_ ?_) ?_) ?_) ?_) ?_) ?_) ?_) ?_ <;>
    exact ite_nonneg_int _ _ (by norm_num)

/-- The returned URL risk score is the clamp of the raw score. -/
theorem analyzeURL_riskScore (u : ParsedURL) (d : String) :
    (analyzeURL u d).riskScore = min 100 (urlRiskScoreRaw u d) := rfl

/-- The returned URL risk level is the tier of the raw score. -/
theorem analyzeURL_riskLevel (u : ParsedURL) (d : String) :
    (analyzeURL u d).riskLevel = urlTier (urlRiskScoreRaw u d) := rfl

/-- The returned URL safe flag tests the raw score against 30. -/
theorem analyzeURL_safe (u : ParsedURL) (d : String) :
    (analyzeURL u d).safe = decide (urlRiskScoreRaw u d < 30) := rfl

/-- The password score is clamped to `[0, 100]` by its final
`min 100 (max 0 _)`. -/
theorem analyzePassword_score_clamped (pw : String) :
    0 ≤ (analyzePassword pw).score ∧ (analyzePassword pw).score ≤ 100 := by
  constructor
  · show 0 ≤ min 100 (max 0 _)
    exact le_min (by norm_num) (le_max_left _ _)
  · show min 100 (max 0 _) ≤ 100
    exact min_le_left _ _

/-- The SMS base score is nonnegative. -/
theorem smsBaseScore_nonneg (m : String) : 0 ≤ smsBaseScore m := by
  unfold smsBaseScore
  exact add_nonneg (mul_nonneg (Int.natCast_nonneg _) (by norm_num))
    (ite_nonneg_int _ _ (by norm_num))

/-- The clamped heuristic SMS score lies in `[0, 100]`. -/
theorem smsHeuristicScore_bounds (m : String) :
    0 ≤ smsHeuristicScore m ∧ smsHeuristicScore m ≤ 100 := by
  unfold smsHeuristicScore
  exact ⟨le_min (by norm_num)
      (add_nonneg (smsBaseScore_nonneg m) (ite_nonneg_int _ _ (by norm_num))),
    min_le_left _ _⟩

/-- The AI nudges keep the SMS score in `[0, 100]`. -/
theorem smsFinalScore_bounds (m : String) (ai : Option SmsAIResult) :
    0 ≤ smsFinalScore m ai ∧ smsFinalScore m ai ≤ 100 := by
  obtain ⟨h0, h100⟩ := smsHeuristicScore_bounds m
  cases ai with
  | none => exact ⟨h0, h100⟩
  | some a =>
      have e : smsFinalScore m (some a) =
          if !a.isScam && decide ((if a.isScam && decide (smsHeuristicScore m < 50) then
              (60 : Int) else smsHeuristicScore m) < 30) then
            max 0 ((if a.isScam && decide (smsHeuristicScore m < 50) then
              (60 : Int) else smsHeuristicScore m) - 10)
          else (if a.isScam && decide (smsHeuristicScore m < 50) then
              (60 : Int) else smsHeuristicScore m) := rfl
      rw [e]
      split_ifs <;>
        first
          | exact ⟨le_max_left _ _, max_le (by norm_num) (by omega)⟩
          | (constructor <;> omega)

/-! ## Claims -/

/-- C1: for every input accepted by an evaluator, the score of the returned
result is an integer in `[0, 100]`: the URL analysis clamps its accumulated
sum with `min 100` (the sum is nonnegative), the password analysis clamps
with `min 100 (max 0 _)`, and the SMS risk score — which determines the
returned `isScam`, `riskLevel` and `confidence` — is clamped with `min 100`
and kept in range by the AI nudges. -/
theorem C1_scores_clamped :
    (∀ (u : ParsedURL) (d : String),
      0 ≤ (analyzeURL u d).riskScore ∧ (analyzeURL u d).riskScore ≤ 100) ∧
    (∀ pw : String, 0 ≤ (analyzePassword pw).score ∧ (analyzePassword pw).score ≤ 100) ∧
    (∀ (m : String) (ai : Option SmsAIResult),
      0 ≤ smsFinalScore m ai ∧ smsFinalScore m ai ≤ 100) := by
  refine ⟨fun u d => ?_, fun pw => analyzePassword_score_clamped pw,
    fun m ai => smsFinalScore_bounds m ai⟩
  rw [analyzeURL_riskScore]
  exact ⟨le_min (by norm_num) (urlRiskScoreRaw_nonneg u d), min_le_left _ _⟩

/-- C2: the URL evaluator assigns the tier by the thresholds ≥70 critical,
≥50 high, ≥30 medium, ≥15 low, else safe on the returned score, and sets
`safe` to `score < 30`; consequently a returned score in `[15, 29]` gives
tier "low" with `safe = true`, and a returned score of exactly 30 gives tier
"medium" with `safe = false`. -/
theorem C2_url_tier_and_safe (u : ParsedURL) (d : String) :
    (analyzeURL u d).riskLevel = urlTier (analyzeURL u d).riskScore ∧
    (analyzeURL u d).safe = decide ((analyzeURL u d).riskScore < 30) ∧
    (15 ≤ (analyzeURL u d).riskScore ∧ (analyzeURL u d).riskScore ≤ 29 →
      (analyzeURL u d).riskLevel = "low" ∧ (analyzeURL u d).safe = true) ∧
    ((analyzeURL u d).riskScore = 30 →
      (analyzeURL u d).riskLevel = "medium" ∧ (analyzeURL u d).safe = false) := by
  rw [analyzeURL_riskScore, analyzeURL_riskLevel, analyzeURL_safe]
  refine ⟨?_, ?_, ?_, ?_⟩
  · rcases le_total (urlRiskScoreRaw u d) 100 with h | h
    · rw [min_eq_right h]
    · rw [min_eq_left h]
      unfold urlTier
      split_ifs <;> first | rfl | omega
  · have h : urlRiskScoreRaw u d < 30 ↔ min 100 (urlRiskScoreRaw u d) < 30 := by omega
    exact decide_eq_decide.mpr h
  · rintro ⟨h15, h29⟩
    have hr : urlRiskScoreRaw u d ≤ 29 := by omega
    have hr15 : 15 ≤ urlRiskScoreRaw u d := by omega
    constructor
    · unfold urlTier
      split_ifs <;> first | rfl | omega
    · simp only [decide_eq_true_eq]
      omega
  · intro h30
    have hr : urlRiskScoreRaw u d = 30 := by omega
    constructor
    · unfold urlTier
      split_ifs <;> first | rfl | omega
    · simp only [decide_eq_false_iff_not]
      omega

/-- C2 witness: "bit.ly" scores exactly 15 (shortener only) and is tier
"low" yet `safe = true`; "a.b.bit.ly" scores exactly 30 (shortener + four
labels) and is tier "medium" with `safe = false`. -/
theorem C2_url_tier_and_safe_witness :
    (analyzeURL parsedBitly "bit.ly").riskScore = 15 ∧
    ((analyzeURL parsedBitly "bit.ly").riskLevel = "low" ∧
      (analyzeURL parsedBitly "bit.ly").safe = true) ∧
    (analyzeURL ⟨"https:", "a.b.bit.ly", "/", "https://a.b.bit.ly/"⟩ "a.b.bit.ly").riskScore = 30 ∧
    ((analyzeURL ⟨"https:", "a.b.bit.ly", "/", "https://a.b.bit.ly/"⟩ "a.b.bit.ly").riskLevel = "medium" ∧
      (analyzeURL ⟨"https:", "a.b.bit.ly", "/", "https://a.b.bit.ly/"⟩ "a.b.bit.ly").safe = false) :=
  ⟨by decide,
   (C2_url_tier_and_safe parsedBitly "bit.ly").2.2.1 ⟨by decide, by decide⟩,
   by decide,
   (C2_url_tier_and_safe ⟨"https:", "a.b.bit.ly", "/", "https://a.b.bit.ly/"⟩ "a.b.bit.ly").2.2.2
     (by decide)⟩

/-- C5 counterexample: the claim says the password evaluator succeeds on
every string including the empty string, but the route guard
`if (!password || …)` treats the empty string as falsy and rejects it with
the 400 error before any analysis runs. -/
theorem C5_counterexample :
    passwordPOST (some "") FetchOutcome.networkError = .error "Password is required" := rfl

/-- C5 amended: the evaluator succeeds on every nonempty string (returning
the pure analysis plus the breach fields), and the underlying
`analyzePassword` does treat the empty string as a minimal-score (0, weak)
password — but the route itself rejects the empty string, so "never fails on
any string" holds only for nonempty inputs. -/
theorem C5_amended (pw : String) (fetch : FetchOutcome) (h : pw ≠ "") :
    passwordPOST (some pw) fetch =
      .ok ⟨analyzePassword pw, (checkBreaches pw fetch).breached,
        (checkBreaches pw fetch).count⟩ ∧
    (analyzePassword "").score = 0 ∧ (analyzePassword "").strength = "weak" := by
  refine ⟨?_, by decide, by decide⟩
  have hb : (pw == "") = false := beq_eq_false_iff_ne.mpr h
  simp [passwordPOST, hb]

/-- C5 amended witness at the one-character password "a". -/
theorem C5_amended_witness :
    ("a" : String) ≠ "" ∧
    (passwordPOST (some "a") FetchOutcome.networkError =
        .ok ⟨analyzePassword "a", (checkBreaches "a" FetchOutcome.networkError).breached,
          (checkBreaches "a" FetchOutcome.networkError).count⟩ ∧
      (analyzePassword "").score = 0 ∧ (analyzePassword "").strength = "weak") :=
  ⟨by decide, C5_amended "a" FetchOutcome.networkError (by decide)⟩

/-- C6: the password evaluator applies *no* sequential-run deduction, even
though the source defines `PATTERNS.sequential` two lines below the two
patterns it does apply: on "Aq!x9mNp123Qr" the sequential pattern matches
(the "123" run), yet the analysis reports the full 80 points (length 20 +
character classes 45 + entropy bonus 15) and its checks list contains only
the five length/class entries — no deduction and no failing check for the
sequential run. -/
theorem C6_no_sequential_deduction :
    PATTERNS.sequentialTest pwC6 = true ∧
    (analyzePassword pwC6).score = 80 ∧
    ((analyzePassword pwC6).checks.map (fun c => c.name)) =
      ["length", "uppercase", "lowercase", "numbers", "special"] := by
  refine ⟨by decide, by decide, by decide⟩

set_option maxRecDepth 8000 in
/-- C9: the breach check hashes with SHA-1 (the digest of "password" is the
well-known value), queries the range endpoint with the 5-character prefix,
scans the `SUFFIX:COUNT` lines case-sensitively for the remaining suffix
(a lowercased suffix does not match), returns the parsed count of the
matching line, and on a non-2xx response or a thrown network error returns
`{breached: false, count: 0}` without failing. -/
theorem C9_checkBreach_behaviour :
    hibpHash "password" = "5BAA61E4C9B93F3F0682250B6CF8331B7EE68FD8" ∧
    hibpRequestUrl "password" = "https://api.pwnedpasswords.com/range/5BAA6" ∧
    hibpSuffix "password" = "1E4C9B93F3F0682250B6CF8331B7EE68FD8" ∧
    checkBreaches "password"
      (.ok ("AAAA:1" ++ "\n" ++ "1E4C9B93F3F0682250B6CF8331B7EE68FD8:42" ++ "\n" ++ "BBBB:3")) =
      ⟨true, some 42⟩ ∧
    checkBreaches "password" (.ok "1e4c9b93f3f0682250b6cf8331b7ee68fd8:42") =
      ⟨false, some 0⟩ ∧
    (∀ pw : String, checkBreaches pw FetchOutcome.networkError = ⟨false, some 0⟩) ∧
    (∀ pw : String, checkBreaches pw FetchOutcome.notOk = ⟨false, some 0⟩) :=
  ⟨by decide, by decide, by decide, by decide, by decide, fun _ => rfl, fun _ => rfl⟩

/-- The numeric fact behind C10: `score ≥ 40` holds exactly when the SMS
tier of the score is "medium", "high" or "critical". -/
theorem smsRiskLevel_ge40 (s : Int) :
    (decide (s ≥ 40) = true ↔
      (smsRiskLevel s = "medium" ∨ smsRiskLevel s = "high" ∨ smsRiskLevel s = "critical")) := by
  unfold smsRiskLevel
  split_ifs <;> simp <;> omega

/-- C10: in every SMS result, with or without AI nudging, `isScam` is true
exactly when the risk level is "medium", "high" or "critical": both are
derived from the same final score, compared against the same 40 cutoff. -/
theorem C10_isScam_iff_medium_or_higher (m : String) (ai : Option SmsAIResult) :
    ((smsPOST m ai).isScam = true ↔
      ((smsPOST m ai).riskLevel = "medium" ∨ (smsPOST m ai).riskLevel = "high" ∨
        (smsPOST m ai).riskLevel = "critical")) :=
  smsRiskLevel_ge40 (smsFinalScore m ai)

/-- C3 counterexample: on the exact specification input the heuristic path
returns `isScam = false` (score 30 < 40: prize family 15 + money family 15)
and extracts *no* links — the third `URL_PATTERN` alternative has no `ly` in
its TLD list, so the protocol-less `bit.ly/win123` is never matched.  Only
the scamType part of the claim holds. -/
theorem C3_counterexample :
    (smsPOST msgSpecC3 none).isScam = false ∧
    (smsPOST msgSpecC3 none).extractedLinks = [] ∧
    (smsPOST msgSpecC3 none).scamType = "Prize/Lottery Scam" := by
  refine ⟨by decide, by decide, by decide⟩

/-- C3 amended: with an explicit protocol on the link ("Click
https://bit.ly/win123"), the first `URL_PATTERN` alternative extracts it,
`isSuspiciousURL` flags the `bit.ly` shortener (safe = false), the score is
3·15 + 25 = 70 ≥ 40, and the claim holds in full. -/
theorem C3_amended :
    (smsPOST msgFixedC3 none).scamType = "Prize/Lottery Scam" ∧
    (smsPOST msgFixedC3 none).isScam = true ∧
    (smsPOST msgFixedC3 none).extractedLinks = [⟨"https://bit.ly/win123", false⟩] := by
  refine ⟨by decide, by decide, by decide⟩

/-- C4 counterexample: on "Click https://bit.ly/x" no keyword family
matches, yet the pre-bonus score is 40, not the 25 the claim predicts: the
suspicious link contributes the 25-point bonus *and* a seventh
"Suspicious Link" red flag worth 15. -/
theorem C4_counterexample :
    smsBaseScore msgC4 = 40 ∧ familyMatchCount msgC4 = 0 ∧
    ((extractLinks msgC4).any (fun l => !l.safe)) = true ∧
    smsBaseScore msgC4 ≠ 15 * familyMatchCount msgC4 + 25 := by
  refine ⟨by decide, by decide, by decide, by decide⟩

/-- C4 amended: each of the six keyword families contributes exactly 15 when
it matches (regardless of how many of its patterns match), and a suspicious
extracted URL contributes exactly 40 — 15 through the "Suspicious Link" red
flag plus the 25-point bonus — before the phone co-occurrence bonus and the
clamp. -/
theorem C4_amended (message : String) :
    smsBaseScore message = 15 * familyMatchCount message +
      (if (extractLinks message).any (fun l => !l.safe) then 40 else 0) := by
  have hlink : ((extractLinks message).any (fun l => !l.safe)) =
      (urlPatternMatch message).any isSuspiciousURL := by
    unfold extractLinks
    generalize urlPatternMatch message = ls
    induction ls with
    | nil => rfl
    | cons x xs ih => simp only [List.map_cons, List.any_cons, ih, Bool.not_not]
  unfold smsBaseScore familyMatchCount detectRedFlags
  rw [hlink]
  simp only [List.length_append, apply_ite (List.length (α := RedFlag)),
    List.length_singleton, List.length_nil]
  push_cast [apply_ite (Int.ofNat)]
  cases h : (urlPatternMatch message).any isSuspiciousURL <;> simp [h] <;> ring

/-! ## Lemmas about the URL parser model -/

/-- `dropWhile` over an append stops no later than an element on which the
predicate fails. -/
theorem dropWhile_append_stop {α : Type} (p : α → Bool) (c : α) (hc : p c = false)
    (xs ys : List α) : (xs ++ c :: ys).dropWhile p = xs.dropWhile p ++ c :: ys := by
  induction xs with
  | nil => simp [List.dropWhile_cons, hc]
  | cons x xs ih =>
      by_cases hx : p x = true
      · simp [List.dropWhile_cons, hx, ih]
      · simp [List.dropWhile_cons, hx]

/-- A successful `isPrefixL` test exhibits the tail. -/
theorem isPrefixL_exists : ∀ (pat l : List Char), isPrefixL pat l = true →
    ∃ m, l = pat ++ m := by
  intro pat
  induction pat with
  | nil => exact fun l _ => ⟨l, rfl⟩
  | cons p ps ih =>
      intro l h
      cases l with
      | nil => simp [isPrefixL] at h
      | cons x xs =>
          rw [isPrefixL, Bool.and_eq_true, beq_iff_eq] at h
          obtain ⟨m, hm⟩ := ih xs h.2
          exact ⟨m, by rw [hm, h.1]; rfl⟩

/-- Every list is prefixed by itself. -/
theorem isPrefixL_append_self (pat z : List Char) : isPrefixL pat (pat ++ z) = true := by
  induction pat with
  | nil => rfl
  | cons p ps ih => simp [isPrefixL, ih]

/-- Preprocessing an input beginning with the prepended "https://" keeps the
prefix intact: the leading trim stops at `h`, the trailing trim cannot cross
the final `/`, and the tab/newline filter keeps every prefix character. -/
theorem urlPreprocess_https (s : List Char) :
    urlPreprocess (['h', 't', 't', 'p', 's', ':', '/', '/'] ++ s) =
      ['h', 't', 't', 'p', 's', ':', '/', '/'] ++ urlPreprocessTail s := by
  unfold urlPreprocess urlPreprocessTail
  have h1 : (['h', 't', 't', 'p', 's', ':', '/', '/'] ++ s).dropWhile isC0OrSpace =
      ['h', 't', 't', 'p', 's', ':', '/', '/'] ++ s := by
    simp [List.dropWhile_cons, show isC0OrSpace (Char.ofNat 104) = false from by decide]
  rw [h1]
  have h2 : (['h', 't', 't', 'p', 's', ':', '/', '/'] ++ s).reverse =
      s.reverse ++ '/' :: ['/', ':', 's', 'p', 't', 't', 'h'] := by simp
  rw [h2, dropWhile_append_stop isC0OrSpace '/' (by decide)]
  simp [List.filter_append, List.filter_cons,
    show (!isTabOrNewline 'h') = true from by decide,
    show (!isTabOrNewline 't') = true from by decide,
    show (!isTabOrNewline 'p') = true from by decide,
    show (!isTabOrNewline 's') = true from by decide,
    show (!isTabOrNewline ':') = true from by decide,
    show (!isTabOrNewline '/') = true from by decide]

/-- The same for an input that starts with the literal "http": the prefix
characters survive preprocessing. -/
theorem urlPreprocess_http (s : List Char) :
    urlPreprocess (['h', 't', 't', 'p'] ++ s) =
      ['h', 't', 't', 'p'] ++ urlPreprocessTail s := by
  unfold urlPreprocess urlPreprocessTail
  have h1 : (['h', 't', 't', 'p'] ++ s).dropWhile isC0OrSpace =
      ['h', 't', 't', 'p'] ++ s := by
    simp [List.dropWhile_cons, show isC0OrSpace (Char.ofNat 104) = false from by decide]
  rw [h1]
  have h2 : (['h', 't', 't', 'p'] ++ s).reverse =
      s.reverse ++ 'p' :: ['t', 't', 'h'] := by simp
  rw [h2, dropWhile_append_stop isC0OrSpace 'p' (by decide)]
  simp [List.filter_append, List.filter_cons,
    show (!isTabOrNewline 'h') = true from by decide,
    show (!isTabOrNewline 't') = true from by decide,
    show (!isTabOrNewline 'p') = true from by decide]

/-- The scheme returned by `schemeTail` extends the accumulator. -/
theorem schemeTail_scheme : ∀ (l acc sch rest : List Char),
    schemeTail acc l = some (sch, rest) →
    ∃ ext, sch = (acc.reverse ++ ext).map asciiLower := by
  intro l
  induction l with
  | nil => intro acc sch rest h; simp [schemeTail] at h
  | cons c cs ih =>
      intro acc sch rest h
      rw [schemeTail] at h
      split_ifs at h with h1 h2
      · rw [Option.some.injEq, Prod.mk.injEq] at h
        exact ⟨[], by rw [← h.1]; simp⟩
      · obtain ⟨ext, hext⟩ := ih (c :: acc) sch rest h
        exact ⟨c :: ext, by rw [hext]; simp⟩

/-- Splitting the scheme of "https://" + anything always yields the scheme
"https" and the remainder "//" + anything. -/
theorem splitScheme_https (x : List Char) :
    splitScheme (['h', 't', 't', 'p', 's', ':', '/', '/'] ++ x) =
      some (['h', 't', 't', 'p', 's'], '/' :: '/' :: x) := rfl

/-- Splitting the scheme of an input starting with "http" reduces to
`schemeTail` with the four prefix characters consumed. -/
theorem splitScheme_http (x : List Char) :
    splitScheme (['h', 't', 't', 'p'] ++ x) = schemeTail ['p', 't', 't', 'h'] x := rfl

/-- A successful special-scheme parse carries `scheme ++ ":"` as protocol. -/
theorem parseSpecialAfterScheme_protocol (sch rest : List Char) (p : ParsedURL)
    (h : parseSpecialAfterScheme sch rest = some p) :
    p.protocol = String.mk (sch ++ [':']) := by
  unfold parseSpecialAfterScheme at h
  simp only [] at h
  split at h
  · exact absurd h (by simp)
  · split_ifs at h <;>
      first
        | exact Option.noConfusion h
        | (injection h with h4; rw [← h4])

/-- A successful parse whose preprocessed input splits into `(sch, rest)`
carries `sch ++ ":"` as protocol, in both the special and the opaque
branches. -/
theorem parseURL_protocol_eq (s : String) (p : ParsedURL) (sch rest : List Char)
    (hsch : splitScheme (urlPreprocess s.data) = some (sch, rest))
    (h : parseURL s = some p) : p.protocol = String.mk (sch ++ [':']) := by
  unfold parseURL at h
  rw [hsch] at h
  dsimp only at h
  split_ifs at h with h1
  · exact parseSpecialAfterScheme_protocol _ _ _ h
  · injection h with h2
    rw [← h2]

/-- Prepending "https://" forces the parsed protocol to be exactly
"https:". -/
theorem parseURL_https_scheme (s : String) (p : ParsedURL)
    (h : parseURL ("https://" ++ s) = some p) : p.protocol = "https:" := by
  have hd : ("https://" ++ s).data = ['h', 't', 't', 'p', 's', ':', '/', '/'] ++ s.data := rfl
  have hsch : splitScheme (urlPreprocess (("https://" ++ s)).data) =
      some (['h', 't', 't', 'p', 's'], '/' :: '/' :: urlPreprocessTail s.data) := by
    rw [hd, urlPreprocess_https, splitScheme_https]
  exact parseURL_protocol_eq _ _ _ _ hsch h

/-- An input that starts with the literal "http" parses (when it parses at
all) to a protocol that also starts with "http". -/
theorem parseURL_http_start (s : String) (p : ParsedURL)
    (hs : startsWithL s "http" = true) (h : parseURL s = some p) :
    startsWithL p.protocol "http" = true := by
  obtain ⟨m, hm⟩ := isPrefixL_exists "http".data s.data hs
  rcases hsch : splitScheme (urlPreprocess s.data) with _ | ⟨sch, rest⟩
  · rw [parseURL, hsch] at h
    exact absurd h (by simp)
  · have htail : splitScheme (urlPreprocess s.data) =
        schemeTail ['p', 't', 't', 'h'] (urlPreprocessTail m) := by
      rw [show s.data = ['h', 't', 't', 'p'] ++ m from hm, urlPreprocess_http,
        splitScheme_http]
    obtain ⟨ext, hext⟩ := schemeTail_scheme _ _ _ _ (htail ▸ hsch)
    have hproto := parseURL_protocol_eq s p sch rest hsch h
    rw [hproto, hext]
    show isPrefixL "http".data _ = true
    have : (['p', 't', 't', 'h'].reverse ++ ext).map asciiLower =
        "http".data ++ ext.map asciiLower := by simp; decide
    rw [this]
    exact isPrefixL_append_self _ _

/-- C7 counterexample: "httpbin.org" has no protocol (no scheme/colon), but
because it starts with the literal "http" the route does *not* prepend
"https://"; the raw string then fails to parse and the request is rejected —
contradicting "every protocol-less input is parsed with the https scheme". -/
theorem C7_counterexample :
    hasScheme "httpbin.org" = false ∧
    urlPOST (some "httpbin.org") none = .badRequest "Invalid URL format" := by
  refine ⟨by decide, by decide⟩

/-- C7 amended: the route prepends "https://" exactly when the input does
not start with the *literal* "http" (not when a protocol is missing); the
evaluator fails with the 400 "Invalid URL format" exactly when the possibly
prefixed string does not parse, and every prefix-parsed input gets the
`https:` scheme.  A protocol-less input that happens to start with "http"
(such as "httpbin.org") is passed through unprefixed and rejected. -/
theorem C7_amended (u : String) (h : u ≠ "") :
    (urlPOST (some u) none = .badRequest "Invalid URL format" ↔
      parseURL (if startsWithL u "http" then u else "https://" ++ u) = none) ∧
    (∀ p : ParsedURL, startsWithL u "http" = false →
      parseURL ("https://" ++ u) = some p → p.protocol = "https:") := by
  constructor
  · have hb : (u == "") = false := beq_eq_false_iff_ne.mpr h
    simp only [urlPOST, hb, Bool.false_eq_true, if_false]
    cases hp : parseURL (if startsWithL u "http" then u else "https://" ++ u) with
    | none => simp [hp]
    | some q => simp [hp]
  · intro p _ hp
    exact parseURL_https_scheme u p hp

/-- C7 amended witness: "bit.ly" does not start with "http", is prefixed,
parses, and gets protocol "https:". -/
theorem C7_amended_witness :
    ("bit.ly" : String) ≠ "" ∧
    ((urlPOST (some "bit.ly") none = .badRequest "Invalid URL format" ↔
        parseURL (if startsWithL "bit.ly" "http" then "bit.ly"
          else "https://" ++ "bit.ly") = none) ∧
      parsedBitly.protocol = "https:") :=
  ⟨by decide,
   (C7_amended "bit.ly" (by decide)).1,
   (C7_amended "bit.ly" (by decide)).2 parsedBitly (by decide) (by decide)⟩

/-- C8 counterexample: the example input "javascript:alert(1)" named by the
claim never
reaches a `javascript:` scheme — it does not start with "http", so the route
prepends "https://", and `https://javascript:alert(1)` fails to parse (the
"port" `alert(1)` is not numeric): the input is rejected with a 400, not
scored +50. -/
theorem C8_counterexample :
    urlPOST (some "javascript:alert(1)") none = .badRequest "Invalid URL format" := by
  decide

/-- Membership in a conditional singleton list. -/
theorem mem_ite_singleton {α : Type} (x a : α) (c : Prop) [Decidable c] :
    (x ∈ if c then [a] else []) ↔ (c ∧ x = a) := by
  split <;> simp_all

/-- The dangerous-scheme threat string appears in the heuristic threats
exactly when the protocol is `data:` or `javascript:` — no other check
pushes this string. -/
theorem dangerous_threat_mem (p : ParsedURL) (d : String) :
    ("Dangerous URL scheme detected" ∈ (analyzeURL p d).threats) ↔
      (p.protocol == "data:" || p.protocol == "javascript:") = true := by
  have ht : (analyzeURL p d).threats = urlThreats p d := rfl
  rw [ht]
  unfold urlThreats
  simp only []
  simp [List.mem_append, mem_ite_singleton]

/-- C8 amended: *no* input to the route evaluates to a `data:` or
`javascript:` scheme: an input starting with the literal "http" parses to a
protocol that also starts with "http", and any other input is prefixed with
"https://" and parses to exactly "https:".  Hence the +50 dangerous-scheme
branch of `analyzeURL` is unreachable, and its threat string never appears
in the heuristic threats. -/
theorem C8_amended (u : String) (p : ParsedURL)
    (h : parseURL (if startsWithL u "http" then u else "https://" ++ u) = some p) :
    p.protocol ≠ "data:" ∧ p.protocol ≠ "javascript:" ∧
    "Dangerous URL scheme detected" ∉ (analyzeURL p (lowerStr p.hostname)).threats := by
  have hproto : startsWithL p.protocol "http" = true := by
    cases hsw : startsWithL u "http" with
    | true =>
        rw [hsw, if_pos rfl] at h
        exact parseURL_http_start u p hsw h
    | false =>
        rw [hsw] at h
        simp only [Bool.false_eq_true, if_false] at h
        rw [parseURL_https_scheme u p h]
        decide
  have hd : p.protocol ≠ "data:" := by
    intro hc; rw [hc] at hproto; exact absurd hproto (by decide)
  have hj : p.protocol ≠ "javascript:" := by
    intro hc; rw [hc] at hproto; exact absurd hproto (by decide)
  refine ⟨hd, hj, ?_⟩
  have hmem := dangerous_threat_mem p (lowerStr p.hostname)
  intro hin
  have := hmem.mp hin
  rw [Bool.or_eq_true, beq_iff_eq, beq_iff_eq] at this
  rcases this with h1 | h1
  · exact hd h1
  · exact hj h1

/-- C8 amended witness, instantiated at the prefixed parse of "bit.ly". -/
theorem C8_amended_witness :
    parsedBitly.protocol ≠ "data:" ∧ parsedBitly.protocol ≠ "javascript:" ∧
    "Dangerous URL scheme detected" ∉
      (analyzeURL parsedBitly (lowerStr parsedBitly.hostname)).threats :=
  C8_amended "bit.ly" parsedBitly (by decide)
